import Mathlib

/-!
Shallow embedding of the automlops-copilot worker pipeline and its
collaborators, with theorems settling the specification claims.

Conventions of the embedding:
* Python strings are Lean `String`; `s.split(sep)` (with a non-empty
  separator) is `pySplit`, `needle in hay` is `pyIn`, `strip` is
  `pyStrip`, `"\n".join l` is `joinNL l` (all defined below by structural
  recursion so that concrete inputs evaluate).
* Code that can raise returns `Except String A`; the error string names the
  Python exception.  An `AttributeError` raised by calling a string method on
  a list (a recurring slip in the source) is modelled as `.error`.
* External effects (LLM backend calls, network calls, the filesystem seen by
  `os.walk`) are passed in as explicit values, so every definition is a pure
  function of the source code plus its environment.
-/

/-!
### Executable string primitives

The Lean core string functions hide well-founded recursion, so concrete
inputs do not evaluate inside the kernel.  The Python string operations the
source uses are therefore (re)defined here by structural recursion over the
character list of a `String`; each mirrors the CPython semantics for the
(always non-empty) separators the source passes.
-/

/-- One pass of `str.split(sep)`: the fuel is an upper bound on the number of
characters still to consume (each step consumes at least one). -/
def pySplitLoop (sep : List Char) : Nat → List Char → List Char → List (List Char)
  | 0, rest, acc => [acc.reverse ++ rest]
  | _ + 1, [], acc => [acc.reverse]
  | fuel + 1, c :: rest, acc =>
    if sep.isPrefixOf (c :: rest) then
      acc.reverse :: pySplitLoop sep fuel (rest.drop (sep.length - 1)) []
    else pySplitLoop sep fuel rest (c :: acc)

/-- Python `s.split(sep)` for a non-empty separator. -/
def pySplit (s sep : String) : List String :=
  if sep.data.isEmpty then [s]
  else (pySplitLoop sep.data (s.data.length + 1) s.data []).map String.mk

/-- Python `needle in hay` for a non-empty needle: the split on the needle
has more than one piece exactly when the needle occurs. -/
def pyIn (needle hay : String) : Bool :=
  (pySplit hay needle).length > 1

/-- Python `sep.join(pieces)`. -/
def joinWith (sep : String) : List String → String
  | [] => ""
  | [x] => x
  | x :: xs => x ++ sep ++ joinWith sep xs

/-- Python `"\n".join(pieces)`. -/
def joinNL (pieces : List String) : String :=
  joinWith "\n" pieces

/-- Python `s.startswith(pre)`. -/
def pyStartsWith (s pre : String) : Bool :=
  pre.data.isPrefixOf s.data

/-- Python `s.endswith(suf)`. -/
def pyEndsWith (s suf : String) : Bool :=
  suf.data.reverse.isPrefixOf s.data.reverse

/-- Python `s.endswith((e1, e2, ...))`. -/
def endsWithAny (s : String) (exts : List String) : Bool :=
  exts.any (fun e => pyEndsWith s e)

/-- Python `s.lower()` (ASCII, which is all the source compares). -/
def pyLower (s : String) : String :=
  String.mk (s.data.map Char.toLower)

/-- Python `s.strip()` with no argument: whitespace removed from both ends. -/
def pyStrip (s : String) : String :=
  String.mk
    (((s.data.dropWhile Char.isWhitespace).reverse.dropWhile Char.isWhitespace).reverse)

/-- Python `s[:n]`. -/
def pyTake (s : String) (n : Nat) : String :=
  String.mk (s.data.take n)

/-- Python `s.replace(pat, rep)` for a non-empty pattern: every occurrence is
replaced. -/
def pyReplace (s pat rep : String) : String :=
  if pat.data.isEmpty then s else joinWith rep (pySplit s pat)

/-- Python `s.rstrip('/')`. -/
def pyRstripSlash (s : String) : String :=
  String.mk ((s.data.reverse.dropWhile (fun c => c == '/')).reverse)

/-- Whether an `Except` value is an error (a raised exception). -/
def isErr {α : Type} : Except String α → Bool
  | .error _ => true
  | .ok _ => false

deriving instance DecidableEq for Except

/-! ## Repository analyzer (`agent/src/analyzer/repo_analyzer.py`) -/

/-- One file met by the `os.walk` traversal in `analyze_structure`: the
directory part relative to the repository root (`"."` at the top), the file
name, and the file's text (used only by framework detection). -/
structure WalkEntry where
  root : String
  name : String
  content : String
deriving Repr, DecidableEq

/-- Python `str(rel_root / file)`: `"."` as the root contributes nothing. -/
def relPathOf (e : WalkEntry) : String :=
  if e.root = "." then e.name else e.root ++ "/" ++ e.name

/-- The seven file categories of the analysis dictionary. -/
inductive FileCat
  | source
  | notebook
  | dependency
  | config
  | modelArtifact
  | dataFile
  | readme
deriving Repr, DecidableEq

instance : Fintype FileCat :=
  ⟨⟨{.source, .notebook, .dependency, .config, .modelArtifact, .dataFile,
     .readme}, by decide⟩, by intro c; cases c <;> decide⟩

def depNames : List String :=
  ["requirements.txt", "environment.yml", "Pipfile", "pyproject.toml", "setup.py"]

def configExts : List String := [".yaml", ".yml", ".json", ".toml", ".ini"]

def modelExts : List String := [".pth", ".pt", ".h5", ".pkl", ".joblib", ".onnx", ".pb"]

def dataExts : List String := [".csv", ".json", ".parquet", ".txt", ".xml"]

def entryNames : List String := ["train.py", "main.py", "run.py", "model.py"]

/-- The `if/elif` classification chain of `analyze_structure`, one file at a
time.  A data-extension file outside a directory whose relative path mentions
`data` falls into the branch and is assigned nothing (`none`); the `readme`
branch is reached only when no earlier extension test matched. -/
def classifyFile (root name : String) : Option FileCat :=
  if pyEndsWith name ".py" then some .source
  else if pyEndsWith name ".ipynb" then some .notebook
  else if depNames.contains name then some .dependency
  else if endsWithAny name configExts then some .config
  else if endsWithAny name modelExts then some .modelArtifact
  else if endsWithAny name dataExts then
    (if pyIn "data" (pyLower root) then some .dataFile else none)
  else if pyStartsWith (pyLower name) "readme" then some .readme
  else none

/-- The raw membership test of each category, without the chain: used to
state that the chain realizes a first-match precedence order. -/
def catMatches (root name : String) : FileCat → Bool
  | .source => pyEndsWith name ".py"
  | .notebook => pyEndsWith name ".ipynb"
  | .dependency => depNames.contains name
  | .config => endsWithAny name configExts
  | .modelArtifact => endsWithAny name modelExts
  | .dataFile => endsWithAny name dataExts && pyIn "data" (pyLower root)
  | .readme => pyStartsWith (pyLower name) "readme"

/-- The precedence order of the chain. -/
def catOrder : List FileCat :=
  [.source, .notebook, .dependency, .config, .modelArtifact, .dataFile, .readme]

/-- Embeds `_detect_frameworks`: the trigger-substring table. -/
def framework_imports : List (String × List String) :=
  [("tensorflow", ["tensorflow", "tf."]),
   ("pytorch", ["torch", "pytorch"]),
   ("sklearn", ["sklearn", "scikit-learn", "from sklearn"]),
   ("keras", ["keras"]),
   ("xgboost", ["xgboost"]),
   ("lightgbm", ["lightgbm"]),
   ("transformers", ["transformers"]),
   ("fastai", ["fastai"])]

/-- Embeds `_detect_frameworks` over the texts of the first 20 Python files (the
caller passes `python_files[:20]`); a framework is reported when any trigger
substring occurs in any of those texts. -/
def detect_frameworks (texts : List String) : List String :=
  framework_imports.filterMap fun fw =>
    if texts.any (fun c => fw.2.any (fun pat => pyIn pat c)) then some fw.1 else none

/-- The analysis dictionary produced by `analyze_structure`. -/
structure Analysis where
  repo_url : String
  python_files : List String
  notebooks : List String
  requirements_files : List String
  config_files : List String
  model_files : List String
  data_files : List String
  readme : Option String
  entry_points : List String
  ml_frameworks : List String
  file_tree : String
deriving Repr, DecidableEq

/-- The relative paths of the walk entries the chain assigns to category `c`,
in walk order (the loop appends to each list as it meets the files). -/
def catFiles (walk : List WalkEntry) (c : FileCat) : List String :=
  (walk.filter (fun e => decide (classifyFile e.root e.name = some c))).map relPathOf

/-- The body of `analyze_structure` after the existence check: one traversal
classifying every file, entry-point collection inside the `.py` branch,
framework detection over the first 20 Python files, and the (purely
descriptive) file tree.  `readme` is a single field overwritten on each
match, so the last match wins. -/
def Analysis.ofWalk (walk : List WalkEntry) (file_tree repo_url : String) : Analysis :=
  { repo_url := repo_url
    python_files := catFiles walk .source
    notebooks := catFiles walk .notebook
    requirements_files := catFiles walk .dependency
    config_files := catFiles walk .config
    model_files := catFiles walk .modelArtifact
    data_files := catFiles walk .dataFile
    readme := (catFiles walk .readme).getLast?
    entry_points :=
      ((walk.filter (fun e => decide (classifyFile e.root e.name = some .source)
          && entryNames.contains e.name)).map relPathOf)
    ml_frameworks :=
      detect_frameworks
        (((walk.filter (fun e => decide (classifyFile e.root e.name = some .source))).map
            (fun e => e.content)).take 20)
    file_tree := file_tree }

/-- Embeds `RepoAnalyzer.analyze_structure`: raises `ValueError("Repository not
cloned")` exactly when `self.repo_path` is unset or the path does not exist;
otherwise it walks the tree and returns the analysis dictionary.  No
emptiness check is performed. -/
def analyze_structure (repoPathSet repoPathExists : Bool) (walk : List WalkEntry)
    (file_tree repo_url : String) : Except String Analysis :=
  if !repoPathSet || !repoPathExists then .error "Repository not cloned"
  else .ok (Analysis.ofWalk walk file_tree repo_url)

/-- Membership of a path in one of the profile's category sequences (the
`readme` field counts as a one-element sequence when set). -/
def Analysis.inSeq (a : Analysis) (c : FileCat) (p : String) : Bool :=
  match c with
  | .source => a.python_files.contains p
  | .notebook => a.notebooks.contains p
  | .dependency => a.requirements_files.contains p
  | .config => a.config_files.contains p
  | .modelArtifact => a.model_files.contains p
  | .dataFile => a.data_files.contains p
  | .readme => a.readme = some p

/-! ## `RepoAnalyzer.clone_repository` -/

/-- The filesystem as the analyzer sees it (which directories exist), plus
the analyzer's `repo_path` attribute. -/
structure CloneState where
  fs : List String
  repo_path : Option String
deriving Repr, DecidableEq

/-- Embeds `repo_url.rstrip('/').split('/')[-1].replace('.git', '')`, joined under
the clone directory. -/
def derive_repo_path (clone_dir repo_url : String) : String :=
  let repo_name :=
    pyReplace ((pySplit (pyRstripSlash repo_url) "/").getLastD "") ".git" ""
  clone_dir ++ "/" ++ repo_name

/-- Embeds `clone_repository`: sets `repo_path`, returns `True` without cloning when
the target directory already exists, otherwise attempts the clone
(`clone_ok` is the outcome of `Repo.clone_from`); every exception is caught
and turned into `False`. -/
def clone_repository (clone_ok : Bool) (st : CloneState) (repo_url clone_dir : String) :
    CloneState × Bool :=
  let p := derive_repo_path clone_dir repo_url
  if st.fs.contains p then ({ st with repo_path := some p }, true)
  else if clone_ok then ({ fs := p :: st.fs, repo_path := some p }, true)
  else ({ st with repo_path := some p }, false)

/-! ## Agent generators (`agent/src/generators/*.py`)

Each `generate` takes the outcome of the injected LLM backend call as an
`Except String String` (`.error` when the backend raised).  The agent
generators wrap their whole body in `try/except`, so an exception raised by
the cleanup step is also converted into the fallback; the training-script
generator alone can re-raise, because its *fallback* crashes when the
analysis found entry points (it calls `.replace` on the `entry_points`
list). -/

/-- Embeds `DockerfileGenerator._clean_dockerfile`. -/
def clean_dockerfile (content : String) : String :=
  let content :=
    if pyIn "```dockerfile" content || pyIn "```Dockerfile" content then
      let c := (pySplit content "```").getD 1 ""
      if pyStartsWith c "dockerfile" || pyStartsWith c "Dockerfile" then
        joinNL ((pySplit c "\n").drop 1)
      else c
    else if pyIn "```" content then (pySplit content "```").getD 1 ""
    else content
  pyStrip content

/-- Embeds `DockerfileGenerator._generate_fallback_dockerfile` (its `python_version`
argument is unused by the template, as in the source). -/
def fallback_dockerfile (_python_version : String) (frameworks : List String) : String :=
  let base_image :=
    if frameworks.contains "pytorch" then "pytorch/pytorch:2.1.0-cuda11.8-cudnn8-runtime"
    else if frameworks.contains "tensorflow" then "tensorflow/tensorflow:2.15.0-gpu"
    else "python:3.10-slim"
  "FROM " ++ base_image ++ "\n\nWORKDIR /app\n\n# Install system dependencies\nRUN apt-get update && apt-get install -y \\\n    git \\\n    curl \\\n    && rm -rf /var/lib/apt/lists/*\n\n# Copy requirements\nCOPY requirements.txt .\n\n# Install Python dependencies\nRUN pip install --no-cache-dir -r requirements.txt\n\n# Copy application code\nCOPY . .\n\n# Set entry point\nCMD [\"python\", \"train.py\"]\n"

/-- Embeds `DockerfileGenerator.generate`: `_detect_python_version` always returns
`"3.10"`; any exception inside the `try` yields the fallback. -/
def DockerfileGenerator.generate (a : Analysis) (backend : Except String String) : String :=
  match backend with
  | .ok c => clean_dockerfile c
  | .error _ => fallback_dockerfile "3.10" a.ml_frameworks

/-- Embeds `TrainingScriptGenerator._clean_code`: the plain-fence branch calls
`.split` on a list and raises `AttributeError` (caught by `generate`). -/
def training_clean_code (content : String) : Except String String :=
  if pyIn "```python" content then
    .ok (pyStrip ((pySplit ((pySplit content "```python").getD 1 "") "```").getD 0 ""))
  else if pyIn "```" content then
    .error "AttributeError: list object has no attribute split"
  else .ok (pyStrip content)
def training_fallback_text (entry_module : String) : String :=
  "import os\nimport sys\nimport boto3\nimport joblib\nfrom datetime import datetime\nfrom pathlib import Path\n\n# S3 Configuration\nS3_ENDPOINT = os.getenv(\x27DO_SPACES_ENDPOINT\x27, \x27https://nyc3.digitaloceanspaces.com\x27)\nS3_BUCKET = os.getenv(\x27DO_SPACES_BUCKET\x27, \x27automlops-models\x27)\nS3_KEY = os.getenv(\x27DO_SPACES_KEY\x27)\nS3_SECRET = os.getenv(\x27DO_SPACES_SECRET\x27)\n\ndef upload_to_s3(file_path, s3_key):\n    \x27\x27\x27Upload file to DigitalOcean Spaces\x27\x27\x27\n    s3_client = boto3.client(\n        \x27s3\x27,\n        endpoint_url=S3_ENDPOINT,\n        aws_access_key_id=S3_KEY,\n        aws_secret_access_key=S3_SECRET\n    )\n    \n    s3_client.upload_file(file_path, S3_BUCKET, s3_key)\n    print(f\"Uploaded \x7bfile_path\x7d to s3://\x7bS3_BUCKET\x7d/\x7bs3_key\x7d\")\n\ndef main():\n    print(\"Starting training...\")\n    \n    try:\n        # Import and run original training code\n        import " ++ entry_module ++ "\n        \n        # Look for saved model files\n        model_files = list(Path(\x27.\x27).glob(\x27*.pkl\x27)) + \\\n                     list(Path(\x27.\x27).glob(\x27*.pth\x27)) + \\\n                     list(Path(\x27.\x27).glob(\x27*.h5\x27)) + \\\n                     list(Path(\x27.\x27).glob(\x27*.joblib\x27))\n        \n        if model_files:\n            for model_file in model_files:\n                timestamp = datetime.now().strftime(\x27%Y%m%d_%H%M%S\x27)\n                s3_key = f\"models/\x7btimestamp\x7d_\x7bmodel_file.name\x7d\"\n                upload_to_s3(str(model_file), s3_key)\n        \n        print(\"Training completed successfully!\")\n        \n    except Exception as e:\n        print(f\"Training failed: \x7be\x7d\")\n        sys.exit(1)\n\nif __name__ == \"__main__\":\n    main()\n"

/-- Embeds `TrainingScriptGenerator._generate_fallback_training_script`:
`entry_point = entry_points if entry_points else "train.py"` binds the whole
*list* when entry points exist, and the template then calls
`entry_point.replace(...)`, raising `AttributeError`.  Only an empty
`entry_points` reaches the template (with the string `"train.py"`). -/
def fallback_training_script (entry_points : List String) : Except String String :=
  if entry_points.isEmpty then
    .ok (training_fallback_text (pyReplace (pyReplace "train.py" ".py" "") "/" "."))
  else .error "AttributeError: list object has no attribute replace"

/-- Embeds `TrainingScriptGenerator.generate`: backend or cleanup failure falls into
the `except` handler, which calls the (possibly crashing) fallback. -/
def TrainingScriptGenerator.generate (a : Analysis) (backend : Except String String) :
    Except String String :=
  match (do let c ← backend; training_clean_code c : Except String String) with
  | .ok s => .ok s
  | .error _ => fallback_training_script a.entry_points

/-- Embeds `FastAPIGenerator._clean_code` (same shape as the training one). -/
def fastapi_clean_code (content : String) : Except String String :=
  if pyIn "```python" content then
    .ok (pyStrip ((pySplit ((pySplit content "```python").getD 1 "") "```").getD 0 ""))
  else if pyIn "```" content then
    .error "AttributeError: list object has no attribute split"
  else .ok (pyStrip content)
def fallback_fastapi_text : String :=
  "from fastapi import FastAPI, HTTPException\nfrom fastapi.middleware.cors import CORSMiddleware\nfrom pydantic import BaseModel\nimport joblib\nimport numpy as np\nfrom typing import List, Any\nimport os\n\napp = FastAPI(title=\"AutoMLOps Inference API\", version=\"1.0.0\")\n\n# CORS\napp.add_middleware(\n    CORSMiddleware,\n    allow_origins=[\"*\"],\n    allow_credentials=True,\n    allow_methods=[\"*\"],\n    allow_headers=[\"*\"],\n)\n\n# Load model\nMODEL_PATH = os.getenv(\"MODEL_PATH\", \"model.pkl\")\nmodel = None\n\n@app.on_event(\"startup\")\nasync def load_model():\n    global model\n    try:\n        model = joblib.load(MODEL_PATH)\n        print(f\"Model loaded from \x7bMODEL_PATH\x7d\")\n    except Exception as e:\n        print(f\"Failed to load model: \x7be\x7d\")\n\nclass PredictRequest(BaseModel):\n    data: List[List[float]]\n\nclass PredictResponse(BaseModel):\n    predictions: List[Any]\n\n@app.get(\"/\")\nasync def root():\n    return \x7b\n        \"message\": \"AutoMLOps Inference API\",\n        \"status\": \"running\",\n        \"model_loaded\": model is not None\n    \x7d\n\n@app.get(\"/health\")\nasync def health():\n    if model is None:\n        raise HTTPException(status_code=503, detail=\"Model not loaded\")\n    return \x7b\"status\": \"healthy\"\x7d\n\n@app.post(\"/predict\", response_model=PredictResponse)\nasync def predict(request: PredictRequest):\n    if model is None:\n        raise HTTPException(status_code=503, detail=\"Model not loaded\")\n    \n    try:\n        data = np.array(request.data)\n        predictions = model.predict(data)\n        return \x7b\"predictions\": predictions.tolist()\x7d\n    except Exception as e:\n        raise HTTPException(status_code=500, detail=str(e))\n"

/-- Embeds `FastAPIGenerator.generate`: its fallback is a constant string, so every
failure is absorbed. -/
def FastAPIGenerator.generate (backend : Except String String) : String :=
  match (do let c ← backend; fastapi_clean_code c : Except String String) with
  | .ok s => s
  | .error _ => fallback_fastapi_text

/-- Embeds `GitHubActionsGenerator._detect_tests` (agent variant): substring probes
over the lower-cased file tree. -/
def agent_gha_detect_tests (a : Analysis) : Bool :=
  ["test_", "tests/", "pytest", "unittest"].any (fun ind => pyIn ind (pyLower a.file_tree))

/-- Embeds `GitHubActionsGenerator._clean_yaml` (agent variant).  With a `yaml`/`yml`
tag the loop rewrites `content` on *every* part, so the last qualifying part
wins; with only a plain fence, `content` is rebound to the list returned by
`split` and the final `content.strip()` raises `AttributeError`. -/
def agent_gha_clean_yaml (content : String) : Except String String :=
  if pyIn "```yaml" content || pyIn "```yml" content then
    let parts := pySplit content "```"
    let content := parts.foldl
      (fun acc part =>
        if pyStartsWith (pyStrip part) "yaml" || pyStartsWith (pyStrip part) "yml" then
          joinNL ((pySplit part "\n").drop 1)
        else if !(pyStartsWith (pyStrip part) "```" || pyStartsWith (pyStrip part) "yaml"
            || pyStartsWith (pyStrip part) "yml") then
          part
        else acc)
      content
    .ok (pyStrip content)
  else if pyIn "```" content then
    .error "AttributeError: list object has no attribute strip"
  else .ok (pyStrip content)

/-- Embeds `GitHubActionsGenerator._validate_workflow` (agent variant). -/
def validate_workflow (content : String) : Bool :=
  ["name:", "on:", "jobs:"].all (fun key => pyIn key content)
def agent_gha_test_step : String :=
  "\n      - name: Run tests\n        run: |\n          pip install pytest\n          pytest tests/ || echo \"No tests found\"\n"

def fallback_workflow (project_name python_version : String) (has_tests : Bool) : String :=
  let test_step := if has_tests then agent_gha_test_step else ""
  "name: Deploy ML API\n\non:\n  push:\n    branches: [ main ]\n  pull_request:\n    branches: [ main ]\n\nenv:\n  REGISTRY: registry.digitalocean.com\n  IMAGE_NAME: automlops/" ++ project_name ++ "\n  KUBE_NAMESPACE: automlops\n\njobs:\n  build-and-test:\n    runs-on: ubuntu-latest\n    \n    steps:\n      - name: Checkout code\n        uses: actions/checkout@v4\n      \n      - name: Set up Python\n        uses: actions/setup-python@v5\n        with:\n          python-version: \x27" ++ python_version ++ "\x27\n      \n      - name: Install dependencies\n        run: |\n          python -m pip install --upgrade pip\n          pip install -r requirements.txt\n" ++ test_step ++ "\n      - name: Set up Docker Buildx\n        uses: docker/setup-buildx-action@v3\n      \n      - name: Build Docker image\n        run: |\n          docker build -t $\x7b\x7b env.REGISTRY \x7d\x7d/$\x7b\x7b env.IMAGE_NAME \x7d\x7d:$\x7b\x7b github.sha \x7d\x7d .\n          docker build -t $\x7b\x7b env.REGISTRY \x7d\x7d/$\x7b\x7b env.IMAGE_NAME \x7d\x7d:latest .\n\n  push-to-registry:\n    needs: build-and-test\n    runs-on: ubuntu-latest\n    if: github.ref == \x27refs/heads/main\x27 && github.event_name == \x27push\x27\n    \n    steps:\n      - name: Checkout code\n        uses: actions/checkout@v4\n      \n      - name: Install doctl\n        uses: digitalocean/action-doctl@v2\n        with:\n          token: $\x7b\x7b secrets.DIGITALOCEAN_ACCESS_TOKEN \x7d\x7d\n      \n      - name: Log in to DO Container Registry\n        run: doctl registry login --expiry-seconds 1200\n      \n      - name: Build and push Docker image\n        run: |\n          docker build -t $\x7b\x7b env.REGISTRY \x7d\x7d/$\x7b\x7b env.IMAGE_NAME \x7d\x7d:$\x7b\x7b github.sha \x7d\x7d .\n          docker build -t $\x7b\x7b env.REGISTRY \x7d\x7d/$\x7b\x7b env.IMAGE_NAME \x7d\x7d:latest .\n          docker push $\x7b\x7b env.REGISTRY \x7d\x7d/$\x7b\x7b env.IMAGE_NAME \x7d\x7d:$\x7b\x7b github.sha \x7d\x7d\n          docker push $\x7b\x7b env.REGISTRY \x7d\x7d/$\x7b\x7b env.IMAGE_NAME \x7d\x7d:latest\n\n  deploy-to-kubernetes:\n    needs: push-to-registry\n    runs-on: ubuntu-latest\n    if: github.ref == \x27refs/heads/main\x27 && github.event_name == \x27push\x27\n    \n    steps:\n      - name: Checkout code\n        uses: actions/checkout@v4\n      \n      - name: Install doctl\n        uses: digitalocean/action-doctl@v2\n        with:\n          token: $\x7b\x7b secrets.DIGITALOCEAN_ACCESS_TOKEN \x7d\x7d\n      \n      - name: Save Kubernetes config\n        run: doctl kubernetes cluster kubeconfig save $\x7b\x7b secrets.KUBERNETES_CLUSTER_NAME \x7d\x7d\n      \n      - name: Deploy to Kubernetes\n        run: |\n          kubectl set image deployment/" ++ project_name ++ " " ++ project_name ++ "=$\x7b\x7b env.REGISTRY \x7d\x7d/$\x7b\x7b env.IMAGE_NAME \x7d\x7d:$\x7b\x7b github.sha \x7d\x7d -n $\x7b\x7b env.KUBE_NAMESPACE \x7d\x7d\n          kubectl rollout status deployment/" ++ project_name ++ " -n $\x7b\x7b env.KUBE_NAMESPACE \x7d\x7d\n      \n      - name: Verify deployment\n        run: |\n          kubectl get pods -n $\x7b\x7b env.KUBE_NAMESPACE \x7d\x7d -l app=" ++ project_name ++ "\n          kubectl get svc -n $\x7b\x7b env.KUBE_NAMESPACE \x7d\x7d -l app=" ++ project_name ++ "\n"

/-- Embeds `GitHubActionsGenerator.generate` (agent variant): the analyzer's
dictionary carries no `python_version` key, so `_detect_python_version`
yields `"3.10"`; cleanup exceptions and validation failures both produce the
fallback workflow. -/
def AgentGitHubActionsGenerator.generate (a : Analysis) (project_name : String)
    (backend : Except String String) : String :=
  let python_version := "3.10"
  let has_tests := agent_gha_detect_tests a
  match (do let c ← backend; agent_gha_clean_yaml c : Except String String) with
  | .ok content =>
    if validate_workflow content then content
    else fallback_workflow project_name python_version has_tests
  | .error _ => fallback_workflow project_name python_version has_tests

/-- Embeds `KubernetesGenerator._detect_gpu_requirement`. -/
def detect_gpu_requirement (frameworks : List String) : Bool :=
  frameworks.any (fun fw => ["tensorflow", "pytorch", "keras"].contains (pyLower fw))

/-- Embeds `KubernetesGenerator._clean_yaml`: like the agent workflow cleaner but
the loop's second branch additionally requires more than 50 characters, and
the plain-fence branch indexes the list (no crash). -/
def k8s_clean_yaml (content : String) : String :=
  if pyIn "```yaml" content || pyIn "```yml" content then
    let parts := pySplit content "```"
    (parts.foldl
      (fun acc part =>
        if pyStartsWith (pyStrip part) "yaml" || pyStartsWith (pyStrip part) "yml" then
          joinNL ((pySplit part "\n").drop 1)
        else if !(pyStartsWith (pyStrip part) "```" || pyStartsWith (pyStrip part) "yaml"
            || pyStartsWith (pyStrip part) "yml") && (pyStrip part).data.length > 50 then
          part
        else acc)
      content |> pyStrip)
  else if pyIn "```" content then
    let parts := pySplit content "```"
    pyStrip (if parts.length > 1 then parts.getD 1 "" else content)
  else pyStrip content

/-- Embeds `KubernetesGenerator._split_manifests`. -/
def split_manifests (content : String) : String × String :=
  let parts := pySplit content "---"
  let ds := parts.foldl
    (fun acc part =>
      let part := pyStrip part
      if part = "" then acc
      else if pyIn "kind: Deployment" part || pyIn "kind: deployment" part then (part, acc.2)
      else if pyIn "kind: Service" part || pyIn "kind: service" part then (acc.1, part)
      else acc)
    ("", "")
  if ds.1 = "" || ds.2 = "" then
    let parts2 := (parts.map pyStrip).filter (fun p => p ≠ "")
    if parts2.length ≥ 2 then (parts2.getD 0 "", parts2.getD 1 "") else ds
  else ds

/-- Embeds `KubernetesGenerator._validate_manifests`. -/
def validate_manifests (deployment service : String) : Bool :=
  (["apiVersion:", "kind: Deployment", "metadata:", "spec:"].all
      (fun key => pyIn key deployment))
    && (["apiVersion:", "kind: Service", "metadata:", "spec:"].all
      (fun key => pyIn key service))
def k8s_gpu_resources : String :=
  "\n            limits:\n              nvidia.com/gpu: 1"

def fallback_manifests (project_name : String) (requires_gpu : Bool) : String × String :=
  let gpu_resources := if requires_gpu then k8s_gpu_resources else ""
  let deployment :=
    "apiVersion: apps/v1\nkind: Deployment\nmetadata:\n  name: " ++ project_name ++ "\n  namespace: automlops\n  labels:\n    app: " ++ project_name ++ "\n    version: v1\n    managed-by: automlops-copilot\nspec:\n  replicas: 2\n  selector:\n    matchLabels:\n      app: " ++ project_name ++ "\n  template:\n    metadata:\n      labels:\n        app: " ++ project_name ++ "\n        version: v1\n    spec:\n      containers:\n      - name: " ++ project_name ++ "\n        image: registry.digitalocean.com/automlops/" ++ project_name ++ ":latest\n        imagePullPolicy: Always\n        ports:\n        - containerPort: 8000\n          name: http\n          protocol: TCP\n        env:\n        - name: PORT\n          value: \"8000\"\n        - name: ENVIRONMENT\n          value: \"production\"\n        resources:\n          requests:\n            memory: \"1Gi\"\n            cpu: \"500m\"\n          limits:\n            memory: \"2Gi\"\n            cpu: \"1000m\"" ++ gpu_resources ++ "\n        livenessProbe:\n          httpGet:\n            path: /health\n            port: 8000\n          initialDelaySeconds: 30\n          periodSeconds: 10\n          timeoutSeconds: 5\n          failureThreshold: 3\n        readinessProbe:\n          httpGet:\n            path: /health\n            port: 8000\n          initialDelaySeconds: 10\n          periodSeconds: 5\n          timeoutSeconds: 3\n          failureThreshold: 3\n      imagePullSecrets:\n      - name: do-registry-secret\n      restartPolicy: Always\n"
  let service :=
    "apiVersion: v1\nkind: Service\nmetadata:\n  name: " ++ project_name ++ "-service\n  namespace: automlops\n  labels:\n    app: " ++ project_name ++ "\n    managed-by: automlops-copilot\n  annotations:\n    service.beta.kubernetes.io/do-loadbalancer-name: \"" ++ project_name ++ "-lb\"\n    service.beta.kubernetes.io/do-loadbalancer-protocol: \"http\"\n    service.beta.kubernetes.io/do-loadbalancer-healthcheck-path: \"/health\"\nspec:\n  type: LoadBalancer\n  selector:\n    app: " ++ project_name ++ "\n  ports:\n  - name: http\n    protocol: TCP\n    port: 80\n    targetPort: 8000\n  sessionAffinity: None\n  externalTrafficPolicy: Cluster\n"
  (deployment, service)

/-- Embeds `KubernetesGenerator.generate`. -/
def KubernetesGenerator.generate (a : Analysis) (project_name : String)
    (backend : Except String String) : String × String :=
  let requires_gpu := detect_gpu_requirement a.ml_frameworks
  match backend with
  | .ok c =>
    let content := k8s_clean_yaml c
    let ds := split_manifests content
    if validate_manifests ds.1 ds.2 then ds
    else fallback_manifests project_name requires_gpu
  | .error _ => fallback_manifests project_name requires_gpu

/-! ## Workers CI generators (`workers/src/generators/ci/*.py`)

`BaseCIGenerator` reads its parameters out of the analysis dictionary with
defaults; `_call_llm` alone is guarded by `try/except`, so an exception
raised by the cleanup step escapes `generate`. -/

/-- The constructor parameters of `BaseCIGenerator`
(`analysis_data.get(key, default)`). -/
structure CIParams where
  repo_name : String
  framework : String
  python_version : String
  requirements : List String
  has_gpu : Bool
  entry_point : String
deriving Repr, DecidableEq

/-- Embeds `BaseCIGenerator.__init__` applied to the worker's analyzer dictionary:
that dictionary carries none of the looked-up keys, so every field takes its
default. -/
def CIParams.ofAnalysis (_a : Analysis) : CIParams :=
  { repo_name := "ml-project"
    framework := "unknown"
    python_version := "3.10"
    requirements := []
    has_gpu := false
    entry_point := "train.py" }

/-- Embeds `BaseCIGenerator._call_llm`: a raising backend is caught and replaced by
the generator's fallback configuration. -/
def call_llm (backend : Except String String) (fallback : String) : String :=
  match backend with
  | .ok response => response
  | .error _ => fallback

namespace GitHubActionsGenerator

/-- Embeds `GitHubActionsGenerator._clean_yaml` (workers variant): both fence
branches call `.split` on the *list* produced by the previous `.split`, so
any fenced response raises `AttributeError`; an unfenced response is
returned trimmed. -/
def clean_yaml (yaml_content : String) : Except String String :=
  if pyIn "```yaml" yaml_content then
    .error "AttributeError: list object has no attribute split"
  else if pyIn "```" yaml_content then
    .error "AttributeError: list object has no attribute split"
  else .ok (pyStrip yaml_content)

def get_filename : String := ".github/workflows/train.yml"
def gpu_jobs_block : String :=
  "\n      - name: Setup CUDA\n        uses: Jimver/cuda-toolkit@v0.2.11\n        with:\n          cuda: \x2711.8.0\x27\n"

def get_fallback_config (p : CIParams) : String :=
  let gpu_jobs := if p.has_gpu then gpu_jobs_block else ""
  "name: Train ML Model\n\non:\n  push:\n    branches: [ main ]\n  pull_request:\n    branches: [ main ]\n  workflow_dispatch:\n\njobs:\n  train:\n    runs-on: ubuntu-latest\n    \n    steps:\n      - name: Checkout code\n        uses: actions/checkout@v4\n      \n      - name: Set up Python\n        uses: actions/setup-python@v5\n        with:\n          python-version: \x27" ++ p.python_version ++ "\x27\n          cache: \x27pip\x27\n      " ++ gpu_jobs ++ "\n      - name: Install dependencies\n        run: |\n          python -m pip install --upgrade pip\n          pip install -r requirements.txt\n      \n      - name: Run training\n        run: |\n          python " ++ p.entry_point ++ "\n      \n      - name: Upload model artifact\n        uses: actions/upload-artifact@v4\n        with:\n          name: trained-model\n          path: |\n            models/\n            *.pkl\n            *.h5\n            *.pth\n          retention-days: 30\n      \n      - name: Upload training logs\n        uses: actions/upload-artifact@v4\n        if: always()\n        with:\n          name: training-logs\n          path: |\n            logs/\n            *.log\n          retention-days: 7\n"

/-- Embeds `GitHubActionsGenerator.generate` (workers variant): prompt, `_call_llm`
(fallback on backend failure), then `_clean_yaml` — which may raise. -/
def generate (p : CIParams) (backend : Except String String) : Except String String :=
  clean_yaml (call_llm backend (get_fallback_config p))

end GitHubActionsGenerator

namespace GitLabCIGenerator

/-- Embeds `GitLabCIGenerator._clean_yaml`: both fence branches rebind the content
to a list and call `.split` on it, raising `AttributeError`. -/
def clean_yaml (yaml_content : String) : Except String String :=
  if pyIn "```yaml" yaml_content then
    .error "AttributeError: list object has no attribute split"
  else if pyIn "```" yaml_content then
    .error "AttributeError: list object has no attribute split"
  else .ok (pyStrip yaml_content)

def get_filename : String := ".gitlab-ci.yml"
def gitlab_gpu_tags : String := "\n  tags:\n    - gpu"

def gitlab_fallback_config (p : CIParams) : String :=
  let gpu_tags := if p.has_gpu then gitlab_gpu_tags else ""
  "stages:\n  - test\n  - train\n  - deploy\n\nvariables:\n  PIP_CACHE_DIR: \"$CI_PROJECT_DIR/.cache/pip\"\n\ncache:\n  paths:\n    - .cache/pip\n\ntest:\n  stage: test\n  image: python:" ++ p.python_version ++ "\n  script:\n    - pip install -r requirements.txt\n    - pip install pytest\n    - pytest tests/ || echo \"No tests found\"\n  only:\n    - merge_requests\n    - main\n\ntrain:\n  stage: train\n  image: python:" ++ p.python_version ++ gpu_tags ++ "\n  script:\n    - pip install -r requirements.txt\n    - python " ++ p.entry_point ++ "\n  artifacts:\n    paths:\n      - models/\n      - \"*.pkl\"\n      - \"*.h5\"\n      - \"*.pth\"\n      - logs/\n    expire_in: 30 days\n  only:\n    - main\n\ndeploy:\n  stage: deploy\n  image: python:" ++ p.python_version ++ "\n  script:\n    - echo \"Deploy model to registry or serving platform\"\n    - pip install mlflow\n    - echo \"mlflow models serve -m ./models\"\n  only:\n    - main\n  when: manual\n"

/-- Embeds `GitLabCIGenerator.generate`. -/
def generate (p : CIParams) (backend : Except String String) : Except String String :=
  clean_yaml (call_llm backend (gitlab_fallback_config p))

end GitLabCIGenerator

namespace JenkinsGenerator

/-- Embeds `JenkinsGenerator._clean_groovy`: same `.split`-on-a-list slip in both
fence branches. -/
def clean_groovy (groovy_content : String) : Except String String :=
  if pyIn "```groovy" groovy_content then
    .error "AttributeError: list object has no attribute split"
  else if pyIn "```" groovy_content then
    .error "AttributeError: list object has no attribute split"
  else .ok (pyStrip groovy_content)

def get_filename : String := "Jenkinsfile"
def jenkins_gpu_env : String :=
  "\n        CUDA_VISIBLE_DEVICES = \x270\x27"

def jenkins_fallback_config (p : CIParams) : String :=
  let agent_config := if p.has_gpu then "\x7b label \x27gpu\x27 \x7d" else "any"
  let gpu_env := if p.has_gpu then jenkins_gpu_env else ""
  "pipeline \x7b\n    agent " ++ agent_config ++ "\n    \n    environment \x7b\n        PYTHON_VERSION = \x27" ++ p.python_version ++ "\x27\n        TRAINING_SCRIPT = \x27" ++ p.entry_point ++ "\x27" ++ gpu_env ++ "\n    \x7d\n    \n    stages \x7b\n        stage(\x27Checkout\x27) \x7b\n            steps \x7b\n                checkout scm\n                sh \x27git log -1\x27\n            \x7d\n        \x7d\n        \n        stage(\x27Setup Environment\x27) \x7b\n            steps \x7b\n                sh \x27\x27\x27\n                    python$\x7bPYTHON_VERSION\x7d -m venv venv\n                    . venv/bin/activate\n                    pip install --upgrade pip\n                    pip install -r requirements.txt\n                \x27\x27\x27\n            \x7d\n        \x7d\n        \n        stage(\x27Run Tests\x27) \x7b\n            steps \x7b\n                sh \x27\x27\x27\n                    . venv/bin/activate\n                    pip install pytest\n                    pytest tests/ || echo \"No tests found\"\n                \x27\x27\x27\n            \x7d\n        \x7d\n        \n        stage(\x27Train Model\x27) \x7b\n            steps \x7b\n                sh \x27\x27\x27\n                    . venv/bin/activate\n                    python $\x7bTRAINING_SCRIPT\x7d\n                \x27\x27\x27\n            \x7d\n        \x7d\n        \n        stage(\x27Archive Artifacts\x27) \x7b\n            steps \x7b\n                archiveArtifacts artifacts: \x27models/**, *.pkl, *.h5, *.pth\x27, fingerprint: true\n                archiveArtifacts artifacts: \x27logs/**, *.log\x27, allowEmptyArchive: true\n            \x7d\n        \x7d\n    \x7d\n    \n    post \x7b\n        success \x7b\n            echo \x27✅ Training completed successfully!\x27\n        \x7d\n        failure \x7b\n            echo \x27❌ Training failed!\x27\n        \x7d\n        always \x7b\n            cleanWs()\n        \x7d\n    \x7d\n\x7d\n"

/-- Embeds `JenkinsGenerator.generate`. -/
def generate (p : CIParams) (backend : Except String String) : Except String String :=
  clean_groovy (call_llm backend (jenkins_fallback_config p))

end JenkinsGenerator

/-! ## Object storage (`workers/src/storage/__init__.py`) -/

/-- Embeds `S3Manager` after `__init__`: stripped credentials and the `enabled`
flag.  When either credential is empty after stripping, no client is built
and `enabled` is `False`. -/
structure S3Manager where
  access_key : String
  secret_key : String
  endpoint : String
  region : String
  bucket : String
  enabled : Bool
deriving Repr, DecidableEq

/-- Embeds `S3Manager.__init__` (credentials already resolved against the
environment, as the `or os.getenv(...)` expression does). -/
def S3Manager.init (access_key secret_key endpoint region bucket : String) : S3Manager :=
  let ak := pyStrip access_key
  let sk := pyStrip secret_key
  { access_key := ak
    secret_key := sk
    endpoint := endpoint
    region := region
    bucket := bucket
    enabled := !(ak == "" || sk == "") }

/-- Embeds `S3Manager.upload_file`: disabled manager returns `False` without
contacting the store; otherwise the boto3 call's outcome decides, a
`ClientError` being caught and turned into `False`. -/
def S3Manager.upload_file (m : S3Manager) (store : Except String Unit)
    (_local_path _s3_key : String) : Bool :=
  if !m.enabled then false
  else
    match store with
    | .ok _ => true
    | .error _ => false

/-- Embeds `S3Manager.upload_directory`: disabled manager (and a missing directory)
return `False`; otherwise each file is uploaded and the result is whether at
least one upload succeeded. -/
def S3Manager.upload_directory (m : S3Manager) (dirExists : Bool)
    (files : List (String × Except String Unit)) (_local_dir s3_pref : String) : Bool :=
  if !m.enabled then false
  else if !dirExists then false
  else
    ((files.filter (fun f => m.upload_file f.2 f.1 (s3_pref ++ "/" ++ f.1))).length) > 0

/-- Embeds `S3Manager.generate_presigned_url`: `None` when disabled or on
`ClientError`. -/
def S3Manager.generate_presigned_url (m : S3Manager) (store : Except String String)
    (_s3_key : String) (_expiration : Nat) : Option String :=
  if !m.enabled then none
  else
    match store with
    | .ok url => some url
    | .error _ => none

/-- One object of a `list_objects_v2` response. -/
structure S3Object where
  key : String
  size : Nat
  last_modified : String
deriving Repr, DecidableEq

/-- Embeds `S3Manager.list_files`: empty list when disabled, on `ClientError`, or
when the response has no `Contents` key. -/
def S3Manager.list_files (m : S3Manager) (resp : Except String (Option (List S3Object)))
    (_pref : String) : List S3Object :=
  if !m.enabled then []
  else
    match resp with
    | .ok (some contents) => contents
    | .ok none => []
    | .error _ => []

/-- Embeds `S3Manager.delete_file`: `False` when disabled or on `ClientError`. -/
def S3Manager.delete_file (m : S3Manager) (store : Except String Unit)
    (_s3_key : String) : Bool :=
  if !m.enabled then false
  else
    match store with
    | .ok _ => true
    | .error _ => false

/-! ## The worker pipeline (`workers/src/worker.py`) -/

/-- One call of `update_job_status`: the status string and the (possibly
empty) error message sent with it.  The other payload fields never influence
control flow and are omitted. -/
abbrev Report := String × String

/-- Embeds `update_job_status`: builds the payload, PATCHes the orchestrator and
checks the response — all inside `try/except`, every failure being logged
only.  `net` is the outcome of the HTTP call (`.error` when the request or
`raise_for_status` raised); the function itself always returns normally. -/
def update_job_status (net : Except String Unit) : Except String Unit :=
  match net with
  | .ok u => .ok u
  | .error _ => .ok ()

/-- Embeds `sanitize_project_name`: last URL segment, `.git` removed, lower-cased
with non-alphanumerics replaced by `-`, truncated to 50 characters.  (The
`except` branch is unreachable: no step raises.) -/
def sanitize_project_name (repo_url _job_id : String) : String :=
  let name := pyReplace ((pySplit repo_url "/").getLastD "") ".git" ""
  let name := String.mk ((pyLower name).data.map (fun c => if c.isAlphanum then c else '-'))
  pyTake name 50

/-- The worker's feature flags (environment variables read at start-up). -/
structure Flags where
  enable_k8s_build : Bool
  enable_training : Bool
  enable_deployment : Bool
  enable_s3_upload : Bool
  enable_github_push : Bool
  enable_cicd_generation : Bool
deriving Repr, DecidableEq

/-- The outcome of each LLM backend call made while processing one job, one
per generator invocation. -/
structure Backends where
  dockerfile : Except String String
  training_script : Except String String
  fastapi : Except String String
  agent_gha : Except String String
  k8s_manifests : Except String String
  ci_github : Except String String
  ci_gitlab : Except String String
  ci_jenkins : Except String String
deriving Repr

/-- Everything `process_job` observes from the outside world. -/
structure JobEnv where
  flags : Flags
  /-- Outcome of the `LLMClient()` constructor (raises `ValueError` when the
  configured provider has no API key or is unsupported). -/
  llm_init : Except String Unit
  /-- Outcome of `analyzer.clone_repository(); analyzer.analyze_structure()`
  (`clone_repository` absorbs its own errors; `analyze_structure` raises when
  the repository directory is absent). -/
  analysis : Except String Analysis
  backends : Backends
  /-- Outcome of `create_repository` + `push_code`, carrying `html_url`. -/
  github_push : Except String String
  /-- Boolean outcomes of the individual S3 uploads (they never raise). -/
  s3_upload_ok : Bool
  /-- Outcome of `deploy_inference_api`, carrying the endpoint. -/
  deploy : Except String String
  repo_url : String
  job_id : String
deriving Repr

/-- Embeds `generate_ci_configs`: each of the three workers CI generators runs in
its own `try/except`, so a generator that raises contributes no entry. -/
def generate_ci_configs (p : CIParams) (b : Backends) : List (String × String) :=
  (match GitHubActionsGenerator.generate p b.ci_github with
    | .ok c => [(GitHubActionsGenerator.get_filename, c)]
    | .error _ => [])
  ++ (match GitLabCIGenerator.generate p b.ci_gitlab with
    | .ok c => [(GitLabCIGenerator.get_filename, c)]
    | .error _ => [])
  ++ (match JenkinsGenerator.generate p b.ci_jenkins with
    | .ok c => [(JenkinsGenerator.get_filename, c)]
    | .error _ => [])

/-- Embeds `process_job`: the whole body is one `try` whose `except` reports
`failed` with `str(e)` untruncated.  Returns the sequence of
`update_job_status` calls (status, error_message) and the files written to
the staging directory.  The `nets` argument carries the outcomes of the
outbound status calls; `update_job_status` discards them, so they are listed
only to show they cannot influence anything. -/
def process_job (env : JobEnv) (nets : List (Except String Unit)) :
    List Report × List (String × String) :=
  let _ := nets.map update_job_status
  let r0 : List Report := [("analyzing", "")]
  match env.llm_init with
  | .error e => (r0 ++ [("failed", e)], [])
  | .ok _ =>
    match env.analysis with
    | .error e => (r0 ++ [("failed", e)], [])
    | .ok a =>
      let r1 := r0 ++ [("generating", "")]
      let dockerfile := DockerfileGenerator.generate a env.backends.dockerfile
      match TrainingScriptGenerator.generate a env.backends.training_script with
      | .error e => (r1 ++ [("failed", e)], [("Dockerfile", dockerfile)])
      | .ok training =>
        let fastapi := FastAPIGenerator.generate env.backends.fastapi
        let arts := [("Dockerfile", dockerfile), ("training_wrapper.py", training),
                     ("app.py", fastapi),
                     ("requirements.txt",
                       joinNL ["fastapi", "uvicorn", "numpy", "joblib", "boto3"])]
        let project_name := sanitize_project_name env.repo_url env.job_id
        let arts := arts ++
          (if env.flags.enable_cicd_generation then
            let gha_yaml :=
              AgentGitHubActionsGenerator.generate a project_name env.backends.agent_gha
            let ds := KubernetesGenerator.generate a project_name env.backends.k8s_manifests
            [(".github/workflows/deploy.yml", gha_yaml), ("k8s/deployment.yaml", ds.1),
             ("k8s/service.yaml", ds.2)]
          else [])
        let arts := arts ++
          (if env.flags.enable_cicd_generation then
            generate_ci_configs (CIParams.ofAnalysis a) env.backends
          else [])
        match (if env.flags.enable_github_push then env.github_push.map some
          else .ok none) with
        | .error e => (r1 ++ [("failed", e)], arts)
        | .ok _ =>
          match (if env.flags.enable_deployment then env.deploy.map some
            else .ok none) with
          | .error e => (r1 ++ [("failed", e)], arts)
          | .ok _ => (r1 ++ [("completed", "")], arts)

/-- The status strings reported for a job, in order. -/
def reportedStatuses (env : JobEnv) (nets : List (Except String Unit)) : List String :=
  (process_job env nets).1.map Prod.fst

/-! ## Shared concrete inputs for the claim theorems -/

/-- A profile for a repository with no classified files. -/
def analysisEmpty : Analysis :=
  { repo_url := "https://github.com/u/demo.git"
    python_files := [], notebooks := [], requirements_files := []
    config_files := [], model_files := [], data_files := []
    readme := none, entry_points := [], ml_frameworks := []
    file_tree := "" }

/-- A profile for a repository whose root holds `train.py` (so the analyzer
recorded an entry point). -/
def analysisTrainPy : Analysis :=
  { analysisEmpty with
    python_files := ["train.py"], entry_points := ["train.py"] }

/-- Backends that answer every call with a short fence-free response. -/
def backendsAllOk : Backends :=
  { dockerfile := .ok "x", training_script := .ok "x", fastapi := .ok "x"
    agent_gha := .ok "x", k8s_manifests := .ok "x", ci_github := .ok "x"
    ci_gitlab := .ok "x", ci_jenkins := .ok "x" }

/-- A job with the build flag enabled, train/deploy disabled, and every
collaborator healthy. -/
def envBuildEnabled : JobEnv :=
  { flags := { enable_k8s_build := true, enable_training := false,
               enable_deployment := false, enable_s3_upload := true,
               enable_github_push := false, enable_cicd_generation := true }
    llm_init := .ok ()
    analysis := .ok analysisEmpty
    backends := backendsAllOk
    github_push := .ok "", s3_upload_ok := true, deploy := .ok ""
    repo_url := "https://github.com/u/demo.git", job_id := "job-1" }

/-- The same job, but the analyzed repository has an entry point and the
LLM backend raises on the training-script call. -/
def envTrainingBackendDown : JobEnv :=
  { envBuildEnabled with
    analysis := .ok analysisTrainPy
    backends := { backendsAllOk with training_script := .error "APIConnectionError" } }

/-- The same job, but cloning/analyzing the repository raised. -/
def envAnalysisDown : JobEnv :=
  { envBuildEnabled with analysis := .error "boom" }

/-! ## C1 -/

/-- C1: the claim that `generate` never raises past its boundary and falls
back to deterministic content is false.  The workers GitHub-Actions
generator raises `AttributeError` out of `generate` whenever the backend
response contains a fence (`_clean_yaml` calls `.split` on a list), and for
the training-script artifact kind a backend that raises makes `generate`
itself raise whenever the profile has entry points (the fallback calls
`.replace` on the `entry_points` list). -/
theorem generate_raises_despite_contract :
    GitHubActionsGenerator.generate (CIParams.ofAnalysis analysisEmpty)
        (.ok "```yaml\nname: Train ML Model\n```")
      = .error "AttributeError: list object has no attribute split"
    ∧ TrainingScriptGenerator.generate analysisTrainPy (.error "APIConnectionError")
      = .error "AttributeError: list object has no attribute replace" := by
  constructor <;> decide

/-! ## C2 -/

/-- C2: the claim that a Generation-Strategy failure never moves the job to
`Failed` is false: with a healthy analyzer, disabled provisioners and sinks,
and only the training-script backend raising, the job is reported
`failed`. -/
theorem generation_failure_reaches_failed :
    (process_job envTrainingBackendDown []).1 =
      [("analyzing", ""), ("generating", ""),
       ("failed", "AttributeError: list object has no attribute replace")] := by
  decide

/-! ## C3 -/

/-- C3 counterexample: with the build flag on and train/deploy off, the
worker reports `analyzing, generating, completed` — it never reports
`queued` or `building`. -/
theorem worker_reports_no_building_cex :
    reportedStatuses envBuildEnabled [] = ["analyzing", "generating", "completed"]
    ∧ reportedStatuses envBuildEnabled [] ≠
        ["queued", "analyzing", "generating", "building", "completed"] := by
  constructor <;> decide

/-- C3 amended: a job with the build flag true and train/deploy false that
completes without crash reports exactly `analyzing, generating, completed`;
no `queued` or `building` status exists in the worker. -/
theorem worker_report_sequence_amended (env : JobEnv) (nets : List (Except String Unit))
    (a : Analysis)
    (hllm : env.llm_init = .ok ())
    (hana : env.analysis = .ok a)
    (htrain : isErr (TrainingScriptGenerator.generate a env.backends.training_script) = false)
    (_hbuild : env.flags.enable_k8s_build = true)
    (_htrainflag : env.flags.enable_training = false)
    (hpush : env.flags.enable_github_push = false)
    (hdeploy : env.flags.enable_deployment = false) :
    reportedStatuses env nets = ["analyzing", "generating", "completed"] := by
  unfold reportedStatuses process_job
  rw [hllm, hana]
  cases htr : TrainingScriptGenerator.generate a env.backends.training_script with
  | error e => rw [htr] at htrain; simp [isErr] at htrain
  | ok t => simp [htr, hpush, hdeploy]

/-- C3 witness. -/
theorem worker_report_sequence_witness :
    reportedStatuses envBuildEnabled [] = ["analyzing", "generating", "completed"] :=
  worker_report_sequence_amended envBuildEnabled [] analysisEmpty rfl rfl (by decide)
    rfl rfl rfl rfl

/-! ## C4 -/

/-- C4: the extraction rule is violated.  The workers GitLab cleaner raises
`AttributeError` on any fenced response instead of extracting the first
block, and the agent workflow cleaner returns the trailing prose (`"Done"`)
instead of the first block's content. -/
theorem extraction_rule_violated :
    GitLabCIGenerator.clean_yaml "```yaml\nstages:\n  - train\n```"
      = .error "AttributeError: list object has no attribute split"
    ∧ agent_gha_clean_yaml "Here is the workflow:\n```yaml\nname: x\n```\nDone"
      = .ok "Done" := by
  constructor <;> decide

/-! ## C5 -/

theorem mem_catFiles {walk : List WalkEntry} {c : FileCat} {p : String}
    (h : p ∈ catFiles walk c) :
    ∃ e ∈ walk, relPathOf e = p ∧ classifyFile e.root e.name = some c := by
  unfold catFiles at h
  rcases List.mem_map.mp h with ⟨e, he, hrel⟩
  rcases List.mem_filter.mp he with ⟨hew, hcl⟩
  exact ⟨e, hew, hrel, of_decide_eq_true hcl⟩

theorem inSeq_exists {walk : List WalkEntry} {ft url : String} {c : FileCat} {p : String}
    (h : (Analysis.ofWalk walk ft url).inSeq c p = true) :
    ∃ e ∈ walk, relPathOf e = p ∧ classifyFile e.root e.name = some c := by
  cases c <;> simp only [Analysis.inSeq, Analysis.ofWalk] at h
  case source | notebook | dependency | config | modelArtifact | dataFile =>
    exact mem_catFiles (List.mem_of_elem_eq_true h)
  case readme =>
    have : (catFiles walk .readme).getLast? = some p := of_decide_eq_true h
    exact mem_catFiles (List.mem_of_mem_getLast? this)

theorem classify_eq_find_first (root name : String) {c : FileCat}
    (h : classifyFile root name = some c) :
    catOrder.find? (catMatches root name) = some c := by
  unfold classifyFile at h
  split_ifs at h with h1 h2 h3 h4 h5 h6 h7 h8 <;>
    simp_all [catOrder, catMatches, List.find?]

/-- C5 amended: with distinct relative paths (as a real directory walk
produces), no file appears in two of the profile's sequences, and a file
that is categorized always receives the first matching category in the
precedence order source, notebook, dependency, config, model artifact,
data, readme.  (Files matching no branch — or matching a data extension
outside a `data` directory — appear in no sequence at all.) -/
theorem analyzer_at_most_one_category (walk : List WalkEntry) (ft url : String)
    (hnd : (walk.map relPathOf).Nodup) :
    (∀ p c c', (Analysis.ofWalk walk ft url).inSeq c p = true →
      (Analysis.ofWalk walk ft url).inSeq c' p = true → c = c')
    ∧ (∀ e ∈ walk, ∀ c, classifyFile e.root e.name = some c →
        catOrder.find? (catMatches e.root e.name) = some c) := by
  constructor
  · intro p c c' h1 h2
    obtain ⟨e1, he1, hr1, hc1⟩ := inSeq_exists h1
    obtain ⟨e2, he2, hr2, hc2⟩ := inSeq_exists h2
    have heq : e1 = e2 := List.inj_on_of_nodup_map hnd he1 he2 (hr1.trans hr2.symm)
    rw [heq, hc2] at hc1
    exact (Option.some.inj hc1).symm
  · intro e _ c hc
    exact classify_eq_find_first e.root e.name hc

def walkW : List WalkEntry :=
  [{ root := ".", name := "train.py", content := "import torch" },
   { root := ".", name := "notes.md", content := "" },
   { root := "data", name := "set.csv", content := "" }]

/-- C5 witness. -/
theorem analyzer_at_most_one_category_witness :
    (walkW.map relPathOf).Nodup
    ∧ ((∀ p c c', (Analysis.ofWalk walkW "" "u").inSeq c p = true →
        (Analysis.ofWalk walkW "" "u").inSeq c' p = true → c = c')
      ∧ (∀ e ∈ walkW, ∀ c, classifyFile e.root e.name = some c →
          catOrder.find? (catMatches e.root e.name) = some c)) :=
  ⟨by decide, analyzer_at_most_one_category walkW "" "u" (by decide)⟩

def walkUncat : List WalkEntry := [{ root := ".", name := "notes.md", content := "" }]

/-- C5 counterexample: a discovered file can land in no sequence at all
(`notes.md` matches no branch), so "exactly one" fails. -/
theorem analyzer_uncategorized_file_cex :
    analyze_structure true true walkUncat "" "u" = .ok (Analysis.ofWalk walkUncat "" "u")
    ∧ (∀ c : FileCat, (Analysis.ofWalk walkUncat "" "u").inSeq c "notes.md" = false) := by
  exact ⟨rfl, by decide⟩

/-! ## C6 -/

/-- C6 counterexample: an existing but empty repository does not fail —
`analyze_structure` returns a profile with all sequences empty. -/
theorem analyzer_empty_repo_cex :
    analyze_structure true true ([] : List WalkEntry) "" "u"
        = .ok (Analysis.ofWalk [] "" "u")
    ∧ isErr (analyze_structure true true ([] : List WalkEntry) "" "u") = false :=
  ⟨rfl, rfl⟩

/-- C6 amended: `analyze_structure` fails exactly when the repository path is
unset or absent; emptiness is never checked. -/
theorem analyzer_error_iff_path_missing (repoPathSet repoPathExists : Bool)
    (walk : List WalkEntry) (ft url : String) :
    isErr (analyze_structure repoPathSet repoPathExists walk ft url)
      = (!repoPathSet || !repoPathExists) := by
  cases repoPathSet <;> cases repoPathExists <;> rfl

/-! ## C7 -/

/-- C7 counterexample: no fixed bound limits the reported `errorMessage` —
the worker passes `str(e)` through untruncated. -/
theorem error_message_unbounded_cex :
    ¬ ∃ B : Nat, ∀ (env : JobEnv) (nets : List (Except String Unit)) (r : Report),
        r ∈ (process_job env nets).1 → r.1 = "failed" → r.2.length ≤ B := by
  rintro ⟨B, hB⟩
  have hmem : (("failed", String.mk (List.replicate (B + 1) 'a')) : Report)
      ∈ (process_job { envAnalysisDown with
          analysis := .error (String.mk (List.replicate (B + 1) 'a')) } []).1 := by
    simp [process_job, envAnalysisDown, envBuildEnabled]
  have hle : (String.mk (List.replicate (B + 1) 'a')).length ≤ B := hB _ [] _ hmem rfl
  have hlen : (String.mk (List.replicate (B + 1) 'a')).length = B + 1 := by
    simp [String.length]
  omega

/-- C7 amended: each `failed` transition carries the triggering error's
message verbatim (hence unbounded): an analysis failure with message `m`
yields exactly the reports `analyzing` then `failed` with `m`. -/
theorem failed_carries_verbatim_message (env : JobEnv) (nets : List (Except String Unit))
    (m : String) (hllm : env.llm_init = .ok ()) (hana : env.analysis = .error m) :
    (process_job env nets).1 = [("analyzing", ""), ("failed", m)] := by
  unfold process_job
  rw [hllm, hana]
  rfl

/-- C7 witness. -/
theorem failed_carries_verbatim_message_witness :
    (process_job envAnalysisDown []).1 = [("analyzing", ""), ("failed", "boom")] :=
  failed_carries_verbatim_message envAnalysisDown [] "boom" rfl rfl

/-! ## C8 -/

/-- C8: `update_job_status` never raises (every outcome of the outbound call
is caught), and the pipeline's behaviour is identical whatever those
outcomes are. -/
theorem update_job_status_best_effort :
    (∀ net : Except String Unit, update_job_status net = .ok ())
    ∧ ∀ (env : JobEnv) (nets nets' : List (Except String Unit)),
        process_job env nets = process_job env nets' := by
  refine ⟨fun net => ?_, fun env nets nets' => rfl⟩
  cases net <;> rfl

/-! ## C9 -/

/-- C9: with either credential empty after stripping, every `S3Manager`
operation returns its non-raising sentinel, independent of the store. -/
theorem s3_disabled_sentinels (access_key secret_key endpoint region bucket : String)
    (hcred : pyStrip access_key = "" ∨ pyStrip secret_key = "") :
    ∀ (store store2 : Except String Unit) (storeUrl : Except String String)
      (resp : Except String (Option (List S3Object))) (dirExists : Bool)
      (files : List (String × Except String Unit)) (lp k ld pref lk : String) (exp : Nat),
      (S3Manager.init access_key secret_key endpoint region bucket).upload_file store lp k
          = false
      ∧ (S3Manager.init access_key secret_key endpoint region bucket).upload_directory
          dirExists files ld pref = false
      ∧ (S3Manager.init access_key secret_key endpoint region bucket).generate_presigned_url
          storeUrl k exp = none
      ∧ (S3Manager.init access_key secret_key endpoint region bucket).list_files resp lk = []
      ∧ (S3Manager.init access_key secret_key endpoint region bucket).delete_file store2 k
          = false := by
  intro store store2 storeUrl resp dirExists files lp k ld pref lk exp
  have he : (S3Manager.init access_key secret_key endpoint region bucket).enabled = false := by
    rcases hcred with h | h <;> simp [S3Manager.init, h]
  refine ⟨?_, ?_, ?_, ?_, ?_⟩ <;>
    simp [S3Manager.upload_file, S3Manager.upload_directory,
      S3Manager.generate_presigned_url, S3Manager.list_files, S3Manager.delete_file, he]

/-- C9 witness. -/
theorem s3_disabled_sentinels_witness :
    (S3Manager.init "" "secret" "nyc3.digitaloceanspaces.com" "nyc3" "automlops-models").upload_file
        (.ok ()) "f" "k" = false
    ∧ (S3Manager.init "" "secret" "nyc3.digitaloceanspaces.com" "nyc3" "automlops-models").upload_directory
        true [("f", .ok ())] "d" "jobs/1" = false
    ∧ (S3Manager.init "" "secret" "nyc3.digitaloceanspaces.com" "nyc3" "automlops-models").generate_presigned_url
        (.ok "https://x") "k" 3600 = none
    ∧ (S3Manager.init "" "secret" "nyc3.digitaloceanspaces.com" "nyc3" "automlops-models").list_files
        (.ok (some [{ key := "k", size := 1, last_modified := "t" }])) "jobs" = []
    ∧ (S3Manager.init "" "secret" "nyc3.digitaloceanspaces.com" "nyc3" "automlops-models").delete_file
        (.ok ()) "k" = false :=
  s3_disabled_sentinels "" "secret" "nyc3.digitaloceanspaces.com" "nyc3" "automlops-models"
    (Or.inl (by decide)) (.ok ()) (.ok ()) (.ok "https://x")
    (.ok (some [{ key := "k", size := 1, last_modified := "t" }])) true [("f", .ok ())]
    "f" "k" "d" "jobs/1" "jobs" 3600

/-! ## C10 -/

/-- C10: `clone_repository` is idempotent — once a call has returned `True`,
any further call for the same URL and clone directory returns the same state
unchanged together with `True`, performing no clone. -/
theorem clone_repository_idempotent (clone_ok : Bool) (st : CloneState)
    (repo_url clone_dir : String)
    (h : (clone_repository clone_ok st repo_url clone_dir).2 = true) :
    ∀ clone_ok2 : Bool,
      clone_repository clone_ok2 (clone_repository clone_ok st repo_url clone_dir).1
          repo_url clone_dir
        = ((clone_repository clone_ok st repo_url clone_dir).1, true) := by
  intro b
  by_cases hfs : st.fs.contains (derive_repo_path clone_dir repo_url) = true
  · have h1 : clone_repository clone_ok st repo_url clone_dir
        = ({ st with repo_path := some (derive_repo_path clone_dir repo_url) }, true) := by
      simp only [clone_repository]
      rw [if_pos hfs]
    rw [h1]
    simp only [clone_repository]
    rw [if_pos hfs]
  · by_cases hok : clone_ok = true
    · have h1 : clone_repository clone_ok st repo_url clone_dir
          = ({ fs := derive_repo_path clone_dir repo_url :: st.fs,
               repo_path := some (derive_repo_path clone_dir repo_url) }, true) := by
        simp only [clone_repository]
        rw [if_neg hfs, if_pos hok]
      rw [h1]
      simp only [clone_repository]
      rw [if_pos (List.elem_eq_true_of_mem (List.mem_cons_self _ st.fs))]
    · exfalso
      simp only [clone_repository] at h
      rw [if_neg hfs, if_neg hok] at h
      exact Bool.false_ne_true h

/-- C10 witness: cloning `demo.git` into `/tmp/repos` succeeds once; the
second call (even with a failing clone backend) returns the same state and
`True`. -/
theorem clone_repository_idempotent_witness :
    clone_repository false
        (clone_repository true ⟨[], none⟩ "https://github.com/u/demo.git" "/tmp/repos").1
        "https://github.com/u/demo.git" "/tmp/repos"
      = ((clone_repository true ⟨[], none⟩ "https://github.com/u/demo.git" "/tmp/repos").1,
         true) :=
  clone_repository_idempotent true ⟨[], none⟩ "https://github.com/u/demo.git" "/tmp/repos"
    (by decide) false
